import Mathlib

/-!
Verification of the NoCall webhook worker (Cloudflare Worker that upserts
call records into Salesforce).  The definitions below are a shallow
embedding of the worker source (`src/index.js`): JavaScript values are
modelled by the inductive `JVal`, objects by association lists in insertion
order, and the remote Salesforce CRM by an oracle environment `Env`.
Outbound remote calls are collected in a trace (`List RemoteCall`).
-/

namespace Nocall

/-- Model of a JavaScript/JSON value.  Objects are association lists in
insertion order (JS objects preserve insertion order for string keys). -/
inductive JVal where
  | vundefined
  | vnull
  | vbool (b : Bool)
  | vnum (n : Int)
  | vstr (s : String)
  | varr (xs : List JVal)
  | vobj (fs : List (String × JVal))

open JVal

/-- JS truthiness (`!!v`).  NaN and floating values are outside the model. -/
def truthy : JVal → Bool
  | .vundefined => false
  | .vnull => false
  | .vbool b => b
  | .vnum n => n != 0
  | .vstr s => s != ""
  | .varr _ => true
  | .vobj _ => true

/-- `typeof v === "object"` (true for null, arrays and plain objects). -/
def typeofObject : JVal → Bool
  | .vnull => true
  | .varr _ => true
  | .vobj _ => true
  | _ => false

def isUndefined : JVal → Bool
  | .vundefined => true
  | _ => false

/-- `Array.isArray v`. -/
def isArray : JVal → Bool
  | .varr _ => true
  | _ => false

/-- First-match lookup in an object's entry list; missing keys give
`undefined` (JS member access). -/
def objGet (fs : List (String × JVal)) (k : String) : JVal :=
  match fs with
  | [] => .vundefined
  | (k', v) :: rest => if k' = k then v else objGet rest k

/-- `k in obj` for an entry list. -/
def objHas (fs : List (String × JVal)) (k : String) : Bool :=
  fs.any (fun kv => kv.1 = k)

/-- JS property assignment on an entry list: replace the first entry with
this key, else append (JS objects keep the original slot on update and
append new keys at the end). -/
def objSet (fs : List (String × JVal)) (k : String) (v : JVal) :
    List (String × JVal) :=
  match fs with
  | [] => [(k, v)]
  | (k', v') :: rest =>
      if k' = k then (k, v) :: rest else (k', v') :: objSet rest k v

/-- Property access `v.k`.  Access on `null` throws a TypeError in JS; the
worker only dereferences values it has guarded, so the model returns
`undefined` there (reachable only for the JSON body `null`, which no claim
touches). -/
def jget (v : JVal) (k : String) : JVal :=
  match v with
  | .vobj fs => objGet fs k
  | _ => .vundefined

/-- Optional chaining `v?.k`. -/
def jgetOpt (v : JVal) (k : String) : JVal :=
  match v with
  | .vundefined => .vundefined
  | .vnull => .vundefined
  | w => jget w k

/-- `'k' in v` (guarded by `typeof v === "object"` in the source). -/
def jhas (v : JVal) (k : String) : Bool :=
  match v with
  | .vobj fs => objHas fs k
  | _ => false

/-- Index access `v[i]` for a numeric index. -/
def jidx (v : JVal) (i : Nat) : JVal :=
  match v with
  | .varr xs => (xs.get? i).getD .vundefined
  | .vobj fs => objGet fs (toString i)
  | .vstr s => match s.data.get? i with
      | some c => .vstr (String.singleton c)
      | none => .vundefined
  | _ => .vundefined

/-- Optional chained index access `v?.[i]`. -/
def jidxOpt (v : JVal) (i : Nat) : JVal :=
  match v with
  | .vundefined => .vundefined
  | .vnull => .vundefined
  | w => jidx w i

/-- JS `a || b`. -/
def jsOr (a b : JVal) : JVal :=
  if truthy a then a else b

/-- JS nullish coalescing `a ?? b`. -/
def nco (a b : JVal) : JVal :=
  match a with
  | .vundefined => b
  | .vnull => b
  | v => v

/-- Strict equality of a value with a string literal (`v === "s"`). -/
def jvalEqStr (v : JVal) (s : String) : Bool :=
  match v with
  | .vstr t => t = s
  | _ => false

/-- `Object.entries v` / spread `{...v}` as an entry list (arrays expose
their indices as string keys). -/
def toEntries : JVal → List (String × JVal)
  | .vobj fs => fs
  | .varr xs => xs.enum.map (fun iv => (toString iv.1, iv.2))
  | _ => []

mutual

/-- JS `String(v)` conversion (arrays join their elements with commas,
`null`/`undefined` elements becoming empty; objects print as
`[object Object]`). -/
def jsToString : JVal → String
  | .vundefined => "undefined"
  | .vnull => "null"
  | .vbool b => if b then "true" else "false"
  | .vnum n => toString n
  | .vstr s => s
  | .varr xs => jsToStringArr xs
  | .vobj _ => "[object Object]"

def jsToStringArr : List JVal → String
  | [] => ""
  | [x] => jsToStringElem x
  | x :: y :: rest => jsToStringElem x ++ "," ++ jsToStringArr (y :: rest)

def jsToStringElem : JVal → String
  | .vundefined => ""
  | .vnull => ""
  | v => jsToString v

end

/-- Parse a run of decimal digits; `none` when a non-digit occurs. -/
def parseDigits : List Char → Option Nat
  | [] => none
  | [c] => if c.isDigit then some (c.toNat - 48) else none
  | c :: rest =>
      if c.isDigit then
        match parseDigits rest with
        | some n => some ((c.toNat - 48) * 10 ^ rest.length + n)
        | none => none
      else none

/-- JS `Number(s)` for strings, restricted to (signed) integers — the
worker only converts numeric HTTP statuses.  Empty/whitespace gives `0`;
non-numeric text gives `none` (NaN). -/
def jsStringToNumber (s : String) : Option Int :=
  let t := s.trim
  match t.data with
  | [] => some 0
  | c :: rest =>
      if c = '-' then (parseDigits rest).map (fun n => -(n : Int))
      else if c = '+' then (parseDigits rest).map (fun n => (n : Int))
      else (parseDigits (c :: rest)).map (fun n => (n : Int))

/-- JS `Number(v)`; `none` stands for NaN.  Arrays and objects convert via
their string form as in JS. -/
def jsToNumber : JVal → Option Int
  | .vundefined => none
  | .vnull => some 0
  | .vbool b => some (if b then 1 else 0)
  | .vnum n => some n
  | .vstr s => jsStringToNumber s
  | .varr xs => jsStringToNumber (jsToString (.varr xs))
  | .vobj fs => jsStringToNumber (jsToString (.vobj fs))

/-- JSON string escaping for one character (the escapes the worker's data
can contain; other characters pass through unchanged). -/
def jsonEscapeChar (c : Char) : String :=
  if c = '"' then "\\\""
  else if c = '\\' then "\\\\"
  else if c = '\n' then "\\n"
  else if c = '\r' then "\\r"
  else if c = '\t' then "\\t"
  else String.singleton c

def jsonQuoteString (s : String) : String :=
  "\"" ++ String.join (s.data.map jsonEscapeChar) ++ "\""

mutual

/-- `JSON.stringify v` (no indent argument): `none` models the JS result
`undefined` (for `undefined` at the top level).  Inside arrays `undefined`
prints as `null`; inside objects such members are skipped. -/
def jsonStringify : JVal → Option String
  | .vundefined => none
  | .vnull => some "null"
  | .vbool b => some (if b then "true" else "false")
  | .vnum n => some (toString n)
  | .vstr s => some (jsonQuoteString s)
  | .varr xs => some ("[" ++ String.intercalate "," (jsonElemList xs) ++ "]")
  | .vobj fs =>
      some ("\x7b" ++ String.intercalate "," (jsonMemberList fs) ++ "\x7d")

def jsonElemList : List JVal → List String
  | [] => []
  | x :: rest => (jsonStringify x).getD "null" :: jsonElemList rest

def jsonMemberList : List (String × JVal) → List String
  | [] => []
  | (k, v) :: rest =>
      match jsonStringify v with
      | none => jsonMemberList rest
      | some s => (jsonQuoteString k ++ ":" ++ s) :: jsonMemberList rest

end

/-- Template interpolation of a `JSON.stringify` result
(`` `${JSON.stringify(v)}` `` prints `undefined` when the result is the
JS value `undefined`). -/
def jsonStringifyT (v : JVal) : String :=
  (jsonStringify v).getD "undefined"

/-- `String(keyValue).replace(/'/g, "\\'")` at character level: every
single quote becomes backslash + quote; all other characters are kept. -/
def escapeQuotes : List Char → List Char
  | [] => []
  | c :: rest =>
      if c = '\x27' then '\x5c' :: '\x27' :: escapeQuotes rest
      else c :: escapeQuotes rest

def escapeSoqlValue (s : String) : String :=
  ⟨escapeQuotes s.data⟩

/-- The SOQL lookup string interpolated in `findCallByKey`. -/
def soqlForKey (keyField : String) (keyValue : JVal) : String :=
  "SELECT Id FROM NoCall_Call__c WHERE " ++ keyField ++ " = \x27" ++
    escapeSoqlValue (jsToString keyValue) ++
    "\x27 ORDER BY LastModifiedDate DESC LIMIT 1"

/-- One line of `formatConversation` (`messages.map(...)` callback). -/
def formatEntry (entry : JVal) : String :=
  if !(truthy entry && typeofObject entry) then jsToString entry
  else
    let role := jget entry "role"
    let content := jget entry "content"
    let name := jget entry "name"
    let toolCalls := jget entry "tool_calls"
    let toolCallId := jget entry "tool_call_id"
    let args := jget entry "args"
    if jvalEqStr role "assistant_tool_call" then
      jsToString role ++ ": " ++
        jsonStringifyT (.vobj [("name", name), ("toolCalls", toolCalls),
          ("args", args)])
    else if jvalEqStr role "tool" then
      jsToString role ++ "(" ++
        jsToString (jsOr (jsOr name toolCallId) (.vstr "")) ++ "): " ++
        jsonStringifyT content
    else
      jsToString (jsOr role (.vstr "message")) ++ ": " ++
        (match content with
         | .vstr s => s
         | c => jsonStringifyT c)

/-- `formatConversation(messages = [])`: non-array input is returned
unchanged; an absent argument defaults to the empty list. -/
def formatConversation (messages : JVal) : JVal :=
  match messages with
  | .vundefined => .vstr ""
  | .varr xs => .vstr (String.intercalate "\n" (xs.map formatEntry))
  | m => m

/-- `removeUndefined(obj)`: non-objects (and `null`) are returned as-is,
otherwise the entries whose value is `undefined` are dropped
(`Object.fromEntries(Object.entries(obj).filter(...))`). -/
def removeUndefined (obj : JVal) : JVal :=
  if !(truthy obj && typeofObject obj) then obj
  else .vobj ((toEntries obj).filter (fun kv => !isUndefined kv.2))

/-- `mapCallPayload(callPayload)`: alias `message` → `Conversation__c` and
`notes` → `Notes__c` when the source is truthy and the target falsy, then
prune `undefined` entries. -/
def mapCallPayload (callPayload : JVal) : JVal :=
  if !(truthy callPayload && typeofObject callPayload) then callPayload
  else
    let mapped := toEntries callPayload
    let mapped :=
      if truthy (jget callPayload "message") &&
          !truthy (jget callPayload "Conversation__c") then
        objSet mapped "Conversation__c" (jget callPayload "message")
      else mapped
    let mapped :=
      if truthy (jget callPayload "notes") &&
          !truthy (jget callPayload "Notes__c") then
        objSet mapped "Notes__c" (jget callPayload "notes")
      else mapped
    removeUndefined (.vobj mapped)

/-- A value thrown by JS code. -/
inductive Thrown where
  /-- An instance of the worker's `SalesforceError` class. -/
  | sfError (message : String) (status : JVal) (body : JVal)
  /-- A built-in error instance (`Error`, `TypeError`, ...), carrying its
  `name` and `message`. -/
  | jsError (name message : String)
  /-- Any other thrown value. -/
  | raw (v : JVal)

/-- `error.status` of a thrown value. -/
def thrownStatus : Thrown → JVal
  | .sfError _ s _ => s
  | .jsError _ _ => .vundefined
  | .raw v => jget v "status"

/-- `error.body` of a thrown value. -/
def thrownBody : Thrown → JVal
  | .sfError _ _ b => b
  | .jsError _ _ => .vundefined
  | .raw v => jget v "body"

/-- `error.message` of a thrown value. -/
def thrownMessage : Thrown → JVal
  | .sfError m _ _ => .vstr m
  | .jsError _ m => .vstr m
  | .raw v => jget v "message"

/-- `String(error)` (`Error.prototype.toString` for error instances). -/
def thrownToString : Thrown → String
  | .sfError m _ _ =>
      if m = "" then "SalesforceError" else "SalesforceError: " ++ m
  | .jsError n m => if m = "" then n else n ++ ": " ++ m
  | .raw v => jsToString v

/-- `isSalesforceError(error)`: an instance of `SalesforceError`, or any
truthy object exposing both a `status` and a `body` property. -/
def isSalesforceError : Thrown → Bool
  | .sfError _ _ _ => true
  | .jsError _ _ => false
  | .raw v => truthy v && typeofObject v && jhas v "status" && jhas v "body"

/-- `mapSalesforceStatus(status)`. -/
def mapSalesforceStatus (status : JVal) : Int :=
  match jsToNumber status with
  | some numeric =>
      if 400 ≤ numeric ∧ numeric < 600 then numeric
      else if 300 ≤ numeric ∧ numeric < 400 then 502
      else 500
  | none => 500

/-- `buildAttributionRecords(callId, attributions = [])`.  An `undefined`
argument takes the default `[]`; a non-array argument makes
`attributions.filter` throw a TypeError. -/
def buildAttributionRecords (callId : JVal) (attributions : JVal) :
    Except Thrown (List JVal) :=
  match attributions with
  | .vundefined => .ok []
  | .varr items =>
      .ok ((items.filter (fun item =>
          truthy item &&
            (truthy (jget item "label") || truthy (jget item "value")))).map
        (fun item => .vobj [
          ("NoCall_Call__c", callId),
          ("Label__c", nco (jget item "label") .vnull),
          ("Value__c", nco (jget item "value") .vnull),
          ("External_Id__c", nco (jget item "externalId") .vnull)]))
  | _ => .error (.jsError "TypeError" "attributions.filter is not a function")

/-- `buildCallFromWebhook(payload)`: derive the canonical call from the
event-shape payload. -/
def buildCallFromWebhook (payload : JVal) : JVal :=
  let conversation := jsOr (jget payload "conversation") (.vobj [])
  let messages := jsOr (jget conversation "message")
    (jget conversation "messages")
  let agent := jget payload "agent"
  let agentLabel : JVal :=
    if truthy agent && truthy (jsOr (jget agent "name") (jget agent "id"))
    then
      .vstr (jsToString (jsOr (jget agent "name") (.vstr "")) ++
        (if truthy (jget agent "name") && truthy (jget agent "id")
         then " / " else "") ++
        jsToString (jsOr (jget agent "id") (.vstr "")))
    else .vundefined
  removeUndefined (.vobj [
    ("CallRecord_Id__c", nco (jget payload "id") .vnull),
    ("Call_Status__c", nco (jget payload "callStatus") .vnull),
    ("From_Phone__c", nco (jget payload "from") .vnull),
    ("To_Phone__c", nco (jget payload "to") .vnull),
    ("Recording_Url__c", nco (jget payload "detailsUrl") .vnull),
    ("EndUser_Id__c", nco (jgetOpt (jget payload "endUser") "id") .vnull),
    ("EndUser_Phone__c",
      nco (jgetOpt (jget payload "endUser") "phoneNumber") .vnull),
    ("Dialed_At__c", nco (jget conversation "startTime") .vnull),
    ("Ended_At__c", nco (jget conversation "endTime") .vnull),
    ("Duration_Sec__c",
      match jget conversation "duration" with
      | .vundefined => .vnull
      | .vnull => .vnull
      | d => .vstr (jsToString d)),
    ("Goal_Status__c", nco (jget conversation "goalStatus") .vnull),
    ("Goal_Result__c", nco (jget conversation "goalResult") .vnull),
    ("Conversation__c",
      if truthy messages then formatConversation messages else .vundefined),
    ("Triggered_By_Label__c", agentLabel)])

/-- `normalizeAttributions(payload)`. -/
def normalizeAttributions (payload : JVal) : JVal :=
  if isArray (jgetOpt payload "attributions") then jgetOpt payload "attributions"
  else
    let attrs := jgetOpt (jgetOpt payload "endUser") "attributions"
    if truthy attrs && typeofObject attrs then
      .varr ((toEntries attrs).map (fun kv =>
        .vobj [("label", .vstr kv.1), ("value", kv.2)]))
    else .varr []

/-- `normalizePayload(payload)` as the pair `(call, attributions)`. -/
def normalizePayload (payload : JVal) : JVal × JVal :=
  if truthy (jget payload "call") && typeofObject (jget payload "call") then
    (jget payload "call", jget payload "attributions")
  else
    (buildCallFromWebhook payload, normalizeAttributions payload)

/-- The token response of `fetchAccessToken` (`instance_url`,
`access_token`). -/
structure Token where
  instance_url : String
  access_token : String

/-- One outbound remote call, as issued by the worker. -/
inductive RemoteCall where
  /-- The password-grant OAuth POST of `fetchAccessToken`. -/
  | auth
  /-- A `queryRecords` GET carrying the given SOQL string. -/
  | query (soql : String)
  /-- A `createRecord` POST to the given object with the given body. -/
  | create (objectName : String) (body : JVal)
  /-- An `updateRecord` PATCH to the given object and record id. -/
  | update (objectName : String) (recordId : String) (body : JVal)

/-- Oracle for the remote Salesforce side: what each outbound call
returns (`.error` models the client function throwing — `fetchAccessToken`
throws a plain `Error`, the other three throw `SalesforceError`, and a
transport fault can surface as any value). -/
structure Env where
  authResult : Except Thrown Token
  queryResult : String → Except Thrown JVal
  createResult : String → JVal → Except Thrown JVal
  updateResult : String → String → JVal → Except Thrown Unit

/-- `createRecord` returns the parsed creation response. -/
def createRecord (env : Env) (objectName : String) (body : JVal) :
    Except Thrown JVal :=
  env.createResult objectName body

/-- `updateRecord` returns `{ id: recordId }` on success. -/
def updateRecord (env : Env) (objectName recordId : String) (body : JVal) :
    Except Thrown JVal :=
  match env.updateResult objectName recordId body with
  | .ok _ => .ok (.vobj [("id", .vstr recordId)])
  | .error e => .error e

def queryRecords (env : Env) (soql : String) : Except Thrown JVal :=
  env.queryResult soql

/-- `findCallByKey`: no query at all when the key value is falsy; otherwise
one SOQL query, resolving `result?.records?.[0]?.Id || null`. -/
def findCallByKey (env : Env) (keyField : String) (keyValue : JVal) :
    Except Thrown JVal × List RemoteCall :=
  if !truthy keyValue then (.ok .vnull, [])
  else
    let soql := soqlForKey keyField keyValue
    match queryRecords env soql with
    | .error e => (.error e, [.query soql])
    | .ok result =>
        (.ok (jsOr (jgetOpt (jidxOpt (jgetOpt result "records") 0) "Id")
          .vnull), [.query soql])

/-- An HTTP response produced by `jsonResponse` (the body is kept as the
JS object handed to `JSON.stringify`). -/
structure Resp where
  status : Int
  body : JVal

def jsonResponse (body : JVal) (status : Int) : Resp :=
  { status := status, body := body }

/-- `Promise.all` over the attribution-create results (all requests are
already issued; the join fails with the first rejection). -/
def promiseAll : List (Except Thrown JVal) → Except Thrown (List JVal)
  | [] => .ok []
  | .error e :: _ => .error e
  | .ok v :: rest =>
      match promiseAll rest with
      | .ok vs => .ok (v :: vs)
      | .error e => .error e

/-- The `catch` branch of `handleRequest` (`operation` holds the value the
mutable variable has when the throw happens). -/
def catchBranch (error : Thrown) (operation : String) : Resp :=
  if isSalesforceError error then
    jsonResponse (.vobj [
      ("error", .vstr "Salesforce error"),
      ("detail", nco (thrownBody error)
        (nco (thrownMessage error) (.vstr "Salesforce request failed"))),
      ("operation", .vstr operation),
      ("salesforceStatus", thrownStatus error)])
      (mapSalesforceStatus (thrownStatus error))
  else
    jsonResponse (.vobj [
      ("error", .vstr "Unexpected error"),
      ("detail", .vstr (thrownToString error)),
      ("operation", .vstr operation)]) 500

/-- Steps of `handleRequest` after the call record has been upserted:
build the attribution rows, fan out their creations, and render the
success response. -/
def afterUpsert (env : Env) (callId : JVal) (operation : String)
    (attrsRaw : JVal) (trace : List RemoteCall) : Resp × List RemoteCall :=
  match buildAttributionRecords callId attrsRaw with
  | .error e => (catchBranch e operation, trace)
  | .ok attributions =>
      if attributions.length > 0 then
        let trace := trace ++
          attributions.map (fun record =>
            RemoteCall.create "NoCall_Attribution__c" record)
        match promiseAll (attributions.map (fun record =>
            (createRecord env "NoCall_Attribution__c" record).map
              (fun result => jget result "id"))) with
        | .error e => (catchBranch e operation, trace)
        | .ok attributionIds =>
            (jsonResponse (.vobj [
              ("callId", callId),
              ("attributionIds", .varr attributionIds),
              ("operation", .vstr operation)])
              (if operation = "update" then 200 else 201), trace)
      else
        (jsonResponse (.vobj [
          ("callId", callId),
          ("attributionIds", .varr []),
          ("operation", .vstr operation)])
          (if operation = "update" then 200 else 201), trace)

/-- `handleRequest` from the parsed JSON payload on: normalization, the
missing-call 400 guard, and the try/catch around the remote work. -/
def handleParsed (env : Env) (payload : JVal) : Resp × List RemoteCall :=
  let normalized := normalizePayload payload
  if !(truthy normalized.1 && typeofObject normalized.1) then
    (jsonResponse (.vobj [
      ("error", .vstr "Missing call object in payload"),
      ("operation", .vstr "insert")]) 400, [])
  else
    match env.authResult with
    | .error e => (catchBranch e "insert", [.auth])
    | .ok _token =>
        let callBody := mapCallPayload normalized.1
        let stableKeyField := "CallRecord_Id__c"
        let found := findCallByKey env stableKeyField
          (jget callBody stableKeyField)
        let trace := RemoteCall.auth :: found.2
        match found.1 with
        | .error e => (catchBranch e "insert", trace)
        | .ok existingCallId =>
            if truthy existingCallId then
              match updateRecord env "NoCall_Call__c"
                  (jsToString existingCallId) callBody with
              | .error e =>
                  (catchBranch e "insert", trace ++
                    [.update "NoCall_Call__c" (jsToString existingCallId)
                      callBody])
              | .ok _ =>
                  afterUpsert env existingCallId "update" normalized.2
                    (trace ++ [.update "NoCall_Call__c"
                      (jsToString existingCallId) callBody])
            else
              match createRecord env "NoCall_Call__c" callBody with
              | .error e =>
                  (catchBranch e "insert",
                    trace ++ [.create "NoCall_Call__c" callBody])
              | .ok callResponse =>
                  afterUpsert env (jget callResponse "id") "insert"
                    normalized.2
                    (trace ++ [.create "NoCall_Call__c" callBody])

/-- An inbound HTTP request: its method and the result of
`request.json()` (`.error e` models a rejected parse with
`String(error) = e`). -/
structure Req where
  method : String
  body : Except String JVal

/-- `handleRequest(request, env)` together with the trace of outbound
remote calls it issues. -/
def handleRequest (req : Req) (env : Env) : Resp × List RemoteCall :=
  if req.method ≠ "POST" then
    (jsonResponse (.vobj [("error", .vstr "Method Not Allowed")]) 405, [])
  else
    match req.body with
    | .error e =>
        (jsonResponse (.vobj [
          ("error", .vstr "Invalid JSON payload"),
          ("detail", .vstr e),
          ("operation", .vstr "insert")]) 400, [])
    | .ok payload => handleParsed env payload

/-! ## Fixtures used by the claim theorems: concrete payloads and remote
oracles. -/

/-- The repository test's event-shape payload carrying neither an `id` nor
a normalized-phone field (`testMissingNormalizedPhoneIsRejectedWhenNoFallback`). -/
def payloadNoKey : JVal := .vobj [("from", .vstr "+10000000000")]

/-- The repository test's event-shape payload carrying both a
`Normalized_Phone__c` value and an `id`
(`testMatchesByNormalizedPhoneBeforeCallRecordId`). -/
def payloadBothKeys : JVal := .vobj [
  ("id", .vstr "call-1"),
  ("callStatus", .vstr "ended"),
  ("from", .vstr "+10000000000"),
  ("to", .vstr "+19999999999"),
  ("Normalized_Phone__c", .vstr "+19999999999")]

/-- A minimal accepted direct-shape payload. -/
def payloadDirect1 : JVal :=
  .vobj [("call", .vobj [("CallRecord_Id__c", .vstr "k1")])]

/-- Direct-shape payload with an attribution list. -/
def payloadDirectAttrs (attrs : List JVal) : JVal := .vobj [
  ("call", .vobj [("CallRecord_Id__c", .vstr "k1")]),
  ("attributions", .varr attrs)]

/-- Remote oracle where every operation succeeds and the lookup query
finds no match. -/
def envOk : Env := {
  authResult := .ok ⟨"https://example.salesforce.com", "token"⟩,
  queryResult := fun _ => .ok (.vobj [("records", .varr [])]),
  createResult := fun objectName _ =>
    if objectName = "NoCall_Call__c" then .ok (.vobj [("id", .vstr "call-abc")])
    else .ok (.vobj [("id", .vstr "attr-1")]),
  updateResult := fun _ _ _ => .ok () }

/-- Remote oracle whose lookup query finds one record with `Id = e`;
attribution creations return id `attr-1`. -/
def envFound (e : JVal) : Env := { envOk with
  queryResult := fun _ => .ok (.vobj [("records", .varr [.vobj [("Id", e)]])]) }

/-- Remote oracle whose lookup finds nothing and whose call-record
creation returns id `c`; attribution creations return id `attr-1`. -/
def envNotFound (c : JVal) : Env := { envOk with
  createResult := fun objectName _ =>
    if objectName = "NoCall_Call__c" then .ok (.vobj [("id", c)])
    else .ok (.vobj [("id", .vstr "attr-1")]) }

/-- Remote oracle whose call-record creation fails with the given
Salesforce status and error body. -/
def envCreateFails (s : Int) (b : JVal) : Env := { envOk with
  createResult := fun objectName body =>
    if objectName = "NoCall_Call__c" then
      .error (.sfError "Failed to create NoCall_Call__c" (.vnum s) b)
    else envOk.createResult objectName body }

/-- Remote oracle whose lookup finds record `call-123` and whose update
then fails with the given Salesforce status and error body. -/
def envUpdateFails (s : Int) (b : JVal) : Env := {
  (envFound (.vstr "call-123")) with
  updateResult := fun _ _ _ =>
    .error (.sfError "Failed to update NoCall_Call__c" (.vnum s) b) }

/-- Remote oracle whose lookup query fails with the given Salesforce
status and error body. -/
def envQueryFails (s : Int) (b : JVal) : Env := { envOk with
  queryResult := fun _ =>
    .error (.sfError "Salesforce query failed" (.vnum s) b) }

/-- The value `fetchAccessToken` throws on a non-ok token response: a
plain `Error` (not a `SalesforceError`) whose message interpolates the
remote status and the JSON-rendered error body. -/
def authFailure (status : Int) (errorBody : JVal) : Thrown :=
  .jsError "Error" ("Salesforce auth failed (" ++ toString status ++ "): " ++
    jsonStringifyT errorBody)

/-- Remote oracle whose authentication step throws the given value. -/
def envAuthThrow (t : Thrown) : Env := { envOk with authResult := .error t }

/-- Scenario D's message list, with a leading system message. -/
def msgsScenarioD : JVal := .varr [
  .vobj [("role", .vstr "system"), ("content", .vstr "system prompt text")],
  .vobj [("role", .vstr "user"), ("content", .vstr "hello")],
  .vobj [("role", .vstr "assistant"), ("content", .vstr "response")]]

/-! ## Spec-side definitions (amended-claim vocabulary). -/

/-- Modelled from the amended claim C8: an attribution item is kept iff it
is truthy and its `label` or its `value` is truthy. -/
def attrItemKept (item : JVal) : Bool :=
  truthy item && (truthy (jget item "label") || truthy (jget item "value"))

/-- Modelled from the amended claim C8: the row built for a kept
attribution item, tagged with the parent call id. -/
def attrRowFor (callId : JVal) (item : JVal) : JVal := .vobj [
  ("NoCall_Call__c", callId),
  ("Label__c", nco (jget item "label") .vnull),
  ("Value__c", nco (jget item "value") .vnull),
  ("External_Id__c", nco (jget item "externalId") .vnull)]

/-- Checks claim C9's property that every single quote in a character list
is immediately preceded by a backslash (`prev` records whether the
previous character was a backslash). -/
def quotesEscapedAux (prev : Bool) : List Char → Bool
  | [] => true
  | c :: rest => ((c != '\x27') || prev) && quotesEscapedAux (c == '\x5c') rest

def quotesEscaped (l : List Char) : Bool :=
  quotesEscapedAux false l

/-! ## Helper lemmas. -/

theorem quotesEscapedAux_escapeQuotes (l : List Char) :
    ∀ prev, quotesEscapedAux prev (escapeQuotes l) = true := by
  induction l with
  | nil => intro prev; rfl
  | cons c rest ih =>
      intro prev
      by_cases hc : c = '\x27'
      · simp [escapeQuotes, hc, quotesEscapedAux, ih]
      · simp [escapeQuotes, hc, quotesEscapedAux, ih]

theorem escapeQuotes_eq_join (l : List Char) :
    escapeQuotes l =
      (l.map (fun c =>
        if c = '\x27' then ['\x5c', '\x27'] else [c])).flatten := by
  induction l with
  | nil => rfl
  | cons c rest ih => by_cases hc : c = '\x27' <;> simp [escapeQuotes, hc, ih]

theorem nco_of_not_nullish (b x : JVal) (h1 : b ≠ .vnull) (h2 : b ≠ .vundefined) :
    nco b x = b := by
  cases b <;> first | rfl | exact absurd rfl h1 | exact absurd rfl h2

theorem mapSalesforceStatus_vnum (s : Int) :
    mapSalesforceStatus (.vnum s) =
      if 400 ≤ s ∧ s < 600 then s
      else if 300 ≤ s ∧ s < 400 then 502 else 500 := by
  rfl

theorem promiseAll_map_ok (l : List JVal) (v : JVal) :
    promiseAll (l.map fun _ => Except.ok v) = .ok (l.map fun _ => v) := by
  induction l with
  | nil => rfl
  | cons x xs ih => simp only [List.map_cons, promiseAll, ih]

theorem isUndefined_of_truthy (v : JVal) (h : truthy v = true) :
    isUndefined v = false := by
  cases v <;> simp_all [truthy, isUndefined]

/-- Values surviving `removeUndefined` on an object are never
`undefined`. -/
theorem mem_toEntries_removeUndefined (L : List (String × JVal))
    (kv : String × JVal) (h : kv ∈ toEntries (removeUndefined (.vobj L))) :
    isUndefined kv.2 = false := by
  simp [removeUndefined, truthy, typeofObject, toEntries,
    List.mem_filter] at h
  exact h.2

/-- An entry of `l` survives `objSet` either unchanged or with the updated
value. -/
theorem mem_objSet_or (l : List (String × JVal)) (k0 : String) (u : JVal)
    (k : String) (v : JVal) (h : (k, v) ∈ l) :
    (k, v) ∈ objSet l k0 u ∨ (k, u) ∈ objSet l k0 u := by
  induction l with
  | nil => cases h
  | cons hd tl ih =>
      obtain ⟨k', v'⟩ := hd
      rcases List.mem_cons.1 h with he | hm
      · injection he with h1 h2
        subst h1; subst h2
        by_cases hk : k = k0
        · subst hk; right; simp [objSet]
        · left; simp [objSet, hk]
      · by_cases hk : k' = k0
        · left; simp only [objSet, if_pos hk]
          exact List.mem_cons_of_mem _ hm
        · rcases ih hm with h | h
          · left; simp only [objSet, if_neg hk]
            exact List.mem_cons_of_mem _ h
          · right; simp only [objSet, if_neg hk]
            exact List.mem_cons_of_mem _ h

/-- A key with a non-`undefined` entry is still present after the
`undefined` filter. -/
theorem objHas_filter_of_mem (L : List (String × JVal)) (k : String)
    (w : JVal) (hmem : (k, w) ∈ L) (hw : isUndefined w = false) :
    objHas (L.filter fun kv => !isUndefined kv.2) k = true := by
  have hf : (k, w) ∈ L.filter fun kv => !isUndefined kv.2 :=
    List.mem_filter.2 ⟨hmem, by simp [hw]⟩
  exact List.any_eq_true.2 ⟨(k, w), hf, by simp⟩

theorem objGet_objSet_self (l : List (String × JVal)) (k : String)
    (v : JVal) : objGet (objSet l k v) k = v := by
  induction l with
  | nil => simp [objSet, objGet]
  | cons hd tl ih =>
      obtain ⟨k', v'⟩ := hd
      by_cases hk : k' = k <;> simp [objSet, objGet, hk, ih]

theorem objGet_objSet_ne (l : List (String × JVal)) (k : String) (v : JVal)
    (k' : String) (h : k' ≠ k) :
    objGet (objSet l k v) k' = objGet l k' := by
  have hk : k ≠ k' := fun hc => h hc.symm
  induction l with
  | nil => simp [objSet, objGet, hk]
  | cons hd tl ih =>
      obtain ⟨a, b⟩ := hd
      by_cases ha : a = k
      · subst ha
        simp only [objSet, if_pos rfl]
        simp [objGet, hk]
      · simp only [objSet, if_neg ha]
        simp [objGet, ih]

theorem objHas_iff_mem_keys (l : List (String × JVal)) (k : String) :
    objHas l k = true ↔ k ∈ l.map Prod.fst := by
  simp only [objHas, List.any_eq_true, List.mem_map, decide_eq_true_eq]

theorem keys_objSet (l : List (String × JVal)) (k : String) (v : JVal) :
    (objSet l k v).map Prod.fst =
      if objHas l k then l.map Prod.fst else l.map Prod.fst ++ [k] := by
  induction l with
  | nil => simp [objSet, objHas]
  | cons hd tl ih =>
      obtain ⟨a, b⟩ := hd
      by_cases ha : a = k
      · subst ha; simp [objSet, objHas]
      · have hcons : objHas ((a, b) :: tl) k = objHas tl k := by
          simp [objHas, ha]
        simp only [objSet, if_neg ha, List.map_cons, ih, hcons]
        by_cases htl : objHas tl k = true
        · rw [if_pos htl, if_pos htl]
        · rw [if_neg htl, if_neg htl, List.cons_append]

theorem nodup_keys_objSet (l : List (String × JVal)) (k : String)
    (v : JVal) (h : (l.map Prod.fst).Nodup) :
    ((objSet l k v).map Prod.fst).Nodup := by
  rw [keys_objSet]
  by_cases hh : objHas l k = true
  · simp [hh, h]
  · have hk : k ∉ l.map Prod.fst := fun hc =>
      hh ((objHas_iff_mem_keys l k).2 hc)
    have hnd : (l.map Prod.fst ++ [k]).Nodup := by
      rw [List.nodup_append]
      refine ⟨h, List.nodup_singleton k, fun x hx hx2 => ?_⟩
      rw [List.mem_singleton] at hx2
      subst hx2
      exact hk hx
    simp [hh, hnd]

theorem objGet_eq_vundefined_of_not_mem (l : List (String × JVal)) (k : String)
    (h : k ∉ l.map Prod.fst) : objGet l k = .vundefined := by
  induction l with
  | nil => rfl
  | cons hd tl ih =>
      obtain ⟨a, b⟩ := hd
      simp only [List.map_cons, List.mem_cons, not_or] at h
      have ha : ¬(a = k) := fun hc => h.1 hc.symm
      simp [objGet, ha, ih h.2]

/-- With duplicate-free keys (always the case for JS objects), filtering
out the `undefined`-valued entries does not change any lookup: a dropped
entry's key reads as `undefined` both before and after. -/
theorem objGet_filter_not_undef (l : List (String × JVal)) (k : String)
    (h : (l.map Prod.fst).Nodup) :
    objGet (l.filter fun kv => !isUndefined kv.2) k = objGet l k := by
  induction l with
  | nil => rfl
  | cons hd tl ih =>
      obtain ⟨k', v'⟩ := hd
      have hnd : (tl.map Prod.fst).Nodup := (List.nodup_cons.1 (by simpa using h)).2
      have hknot : k' ∉ tl.map Prod.fst := (List.nodup_cons.1 (by simpa using h)).1
      by_cases hk : k' = k
      · subst hk
        by_cases hv : isUndefined v' = true
        · have hv' : v' = .vundefined := by cases v' <;> simp_all [isUndefined]
          subst hv'
          have hout : k' ∉ (tl.filter fun kv => !isUndefined kv.2).map Prod.fst := by
            intro hc
            rcases List.mem_map.1 hc with ⟨kv, hkv, hfst⟩
            exact hknot (List.mem_map.2 ⟨kv, List.mem_of_mem_filter hkv, hfst⟩)
          have hfilter : ((k', JVal.vundefined) :: tl).filter
              (fun kv => !isUndefined kv.2) = tl.filter fun kv => !isUndefined kv.2 := by
            simp [List.filter_cons, isUndefined]
          rw [hfilter, objGet_eq_vundefined_of_not_mem _ _ hout]
          simp [objGet]
        · simp [List.filter_cons, hv, objGet]
      · by_cases hv : isUndefined v' = true <;>
          simp [List.filter_cons, hv, objGet, hk, ih hnd]

/-- For duplicate-free keys, reading the alias-mapped object is reading
the entry list after the two conditional `objSet` steps (the `undefined`
filter never changes a lookup). -/
theorem objGet_mapCallPayload (fs : List (String × JVal))
    (hnd : (fs.map Prod.fst).Nodup) (k : String) :
    objGet (toEntries (mapCallPayload (.vobj fs))) k =
      objGet (if truthy (objGet fs "notes") && !truthy (objGet fs "Notes__c")
          then objSet (if truthy (objGet fs "message") &&
              !truthy (objGet fs "Conversation__c") then
              objSet fs "Conversation__c" (objGet fs "message") else fs)
            "Notes__c" (objGet fs "notes")
          else if truthy (objGet fs "message") &&
              !truthy (objGet fs "Conversation__c") then
            objSet fs "Conversation__c" (objGet fs "message") else fs) k := by
  refine objGet_filter_not_undef _ k ?_
  split_ifs with h1 h2 h3
  · exact nodup_keys_objSet _ _ _ (nodup_keys_objSet _ _ _ hnd)
  · exact nodup_keys_objSet _ _ _ hnd
  · exact nodup_keys_objSet _ _ _ hnd
  · exact hnd

/-- Every row built by `buildAttributionRecords` is tagged with the parent
call id. -/
theorem attribution_rows_tagged (cid : JVal) (attrs : List JVal)
    (rows : List JVal) (h : buildAttributionRecords cid (.varr attrs) = .ok rows) :
    ∀ row ∈ rows, jget row "NoCall_Call__c" = cid := by
  intro row hrow
  simp only [buildAttributionRecords, Except.ok.injEq] at h
  subst h
  rcases List.mem_map.1 hrow with ⟨item, _, rfl⟩
  rfl

theorem truthy_vobj (fs : List (String × JVal)) : truthy (.vobj fs) = true :=
  rfl

theorem truthy_vstr (s : String) : truthy (.vstr s) = (s != "") := rfl

theorem truthy_vnull : truthy .vnull = false := rfl

theorem truthy_vundefined : truthy .vundefined = false := rfl

theorem promiseAll_replicate (n : Nat) (v : JVal) :
    promiseAll (List.replicate n (Except.ok v)) = .ok (List.replicate n v) := by
  induction n with
  | zero => rfl
  | succ m ih => simp only [List.replicate_succ, promiseAll, ih]

theorem promiseAll_ok_cons (v : JVal) (n : Nat) (w : JVal) :
    promiseAll (Except.ok v :: List.replicate n (Except.ok w)) =
      .ok (v :: List.replicate n w) := by
  simp only [promiseAll, promiseAll_replicate]

/-! ## Claim theorems. -/

/-- Claim C1 (code behavior at the failing input): for the event-shape
payload `{from: "+10000000000"}`, whose only match-key candidate
(`CallRecord_Id__c`) is null, the handler does not reject with 400: it
answers 201 after issuing two outbound remote calls, the authentication
call first and then a create.  This contradicts the claimed fail-fast
rejection (and the repository test expecting 400 with zero remote
calls). -/
theorem c1_missing_match_key_not_rejected :
    (handleRequest ⟨"POST", .ok payloadNoKey⟩ envOk).1.status = 201 ∧
    (handleRequest ⟨"POST", .ok payloadNoKey⟩ envOk).2.length = 2 ∧
    (handleRequest ⟨"POST", .ok payloadNoKey⟩ envOk).2.head? =
      some RemoteCall.auth := by
  refine ⟨rfl, rfl, rfl⟩

/-- Claim C2 (code behavior at the failing input): for the repository
test's payload carrying both a non-null `Normalized_Phone__c` and an `id`,
the one lookup query the handler issues searches by `CallRecord_Id__c`,
not by the normalized-phone field: no normalized-phone precedence exists
in the code. -/
theorem c2_lookup_queries_call_record_id :
    (handleRequest ⟨"POST", .ok payloadBothKeys⟩ envOk).2.get? 1 =
      some (RemoteCall.query
        ("SELECT Id FROM NoCall_Call__c WHERE CallRecord_Id__c = " ++
          "\x27call-1\x27 ORDER BY LastModifiedDate DESC LIMIT 1")) := by
  simp [handleRequest, handleParsed, afterUpsert, catchBranch, findCallByKey,
    queryRecords, createRecord, updateRecord, promiseAll, normalizePayload,
    normalizeAttributions, buildCallFromWebhook, buildAttributionRecords,
    mapCallPayload, removeUndefined, formatConversation, toEntries, jget,
    jgetOpt, jhas, jidx, jidxOpt, objGet, objSet, jsOr, nco, jvalEqStr,
    truthy, typeofObject, isUndefined, isArray, jsToString, soqlForKey,
    escapeSoqlValue, escapeQuotes, jsonResponse, envOk, payloadBothKeys]

/-- Claim C3 (code behavior at the failing input): the flattener renders a
`system`-role message through the default formatting instead of omitting
it — Scenario D's message list flattens to a transcript whose first line
is the system content. -/
theorem c3_system_message_rendered :
    formatConversation msgsScenarioD =
      .vstr "system: system prompt text\nuser: hello\nassistant: response" := by
  simp [formatConversation, msgsScenarioD, formatEntry, jget, objGet,
    jvalEqStr, jsOr, truthy, typeofObject, jsToString, jsonStringifyT,
    jsonStringify]
  rfl

/-- Claim C4 counterexample: a direct-shape call object with a null-valued
key keeps that key after normalization — null-valued keys are not pruned
from the object handed to the remote create/update call (only
undefined-valued keys are, and this null was supplied by the source, not
by the mapping). -/
theorem c4_null_key_not_pruned :
    mapCallPayload (.vobj [("Call_Status__c", .vnull)]) =
      .vobj [("Call_Status__c", .vnull)] ∧
    jget (mapCallPayload (.vobj [("Call_Status__c", .vnull)]))
      "Call_Status__c" = .vnull := by
  refine ⟨rfl, rfl⟩

/-- Claim C5 counterexample: when the lookup finds record `call-123` and
the update call against it fails with status 400, the response body's
operation tag is `insert`, although the attempted (and failed) remote
operation was the update — `operation` is only switched to `update` after
a successful update call. -/
theorem c5_failed_update_reports_insert :
    (handleRequest ⟨"POST", .ok payloadDirect1⟩
        (envUpdateFails 400 (.vobj [("message", .vstr "bad")]))).2.get? 2 =
      some (RemoteCall.update "NoCall_Call__c" "call-123"
        (.vobj [("CallRecord_Id__c", .vstr "k1")])) ∧
    jget (handleRequest ⟨"POST", .ok payloadDirect1⟩
        (envUpdateFails 400 (.vobj [("message", .vstr "bad")]))).1.body
      "operation" = .vstr "insert" := by
  constructor <;>
    simp [handleRequest, handleParsed, catchBranch, findCallByKey,
      queryRecords, updateRecord, normalizePayload, mapCallPayload,
      removeUndefined, toEntries, jget, jgetOpt, jidx, jidxOpt, objGet,
      jsOr, nco, truthy, typeofObject, isUndefined, soqlForKey, jsToString,
      escapeSoqlValue, escapeQuotes, isSalesforceError, mapSalesforceStatus,
      jsToNumber, thrownStatus, thrownBody, thrownMessage, jsonResponse,
      envUpdateFails, envFound, envOk, payloadDirect1]

/-- Claim C7 counterexample: a call object whose `Conversation__c` field
is explicitly present (with the empty string) is overwritten by the
`message` alias — the alias guard tests truthiness, not presence. -/
theorem c7_present_field_overwritten :
    objHas [("message", JVal.vstr "hi"), ("Conversation__c", JVal.vstr "")]
      "Conversation__c" = true ∧
    mapCallPayload (.vobj [("message", .vstr "hi"),
        ("Conversation__c", .vstr "")]) =
      .vobj [("message", .vstr "hi"), ("Conversation__c", .vstr "hi")] := by
  refine ⟨rfl, rfl⟩

/-- Claim C8 counterexample: an attribution item whose `label` and `value`
are both present but empty strings is dropped, although neither is absent
— the filter tests truthiness, not absence. -/
theorem c8_present_empty_label_dropped :
    buildAttributionRecords (.vstr "c1")
      (.varr [.vobj [("label", .vstr ""), ("value", .vstr ""),
        ("externalId", .vstr "e")]]) = .ok [] ∧
    objHas [("label", JVal.vstr ""), ("value", JVal.vstr ""),
      ("externalId", JVal.vstr "e")] "label" = true := by
  refine ⟨rfl, rfl⟩

/-- Claim C6: for an accepted direct-shape request, when the lookup finds
an existing record id the handler issues one update against that id, tags
the operation `update` and answers 200; when the lookup finds nothing it
issues one create, tags `insert` and answers 201.  In both cases the body
carries the resolved record id, the list of created attribution ids and
the operation tag, the full remote trace is auth, the one lookup query,
the one upsert call and then exactly the attribution creations, and every
attribution row is tagged with the resolved record id. -/
theorem c6_upsert_paths :
    ∀ (e c : JVal) (attrs rowsU rowsI : List JVal),
      truthy e = true →
      buildAttributionRecords e (.varr attrs) = .ok rowsU →
      buildAttributionRecords c (.varr attrs) = .ok rowsI →
      (handleRequest ⟨"POST", .ok (payloadDirectAttrs attrs)⟩ (envFound e) =
        (⟨200, .vobj [("callId", e),
            ("attributionIds", .varr (rowsU.map fun _ => .vstr "attr-1")),
            ("operation", .vstr "update")]⟩,
          [.auth, .query (soqlForKey "CallRecord_Id__c" (.vstr "k1")),
            .update "NoCall_Call__c" (jsToString e)
              (.vobj [("CallRecord_Id__c", .vstr "k1")])] ++
            rowsU.map (RemoteCall.create "NoCall_Attribution__c")) ∧
        ∀ row ∈ rowsU, jget row "NoCall_Call__c" = e) ∧
      (handleRequest ⟨"POST", .ok (payloadDirectAttrs attrs)⟩ (envNotFound c) =
        (⟨201, .vobj [("callId", c),
            ("attributionIds", .varr (rowsI.map fun _ => .vstr "attr-1")),
            ("operation", .vstr "insert")]⟩,
          [.auth, .query (soqlForKey "CallRecord_Id__c" (.vstr "k1")),
            .create "NoCall_Call__c"
              (.vobj [("CallRecord_Id__c", .vstr "k1")])] ++
            rowsI.map (RemoteCall.create "NoCall_Attribution__c")) ∧
        ∀ row ∈ rowsI, jget row "NoCall_Call__c" = c) := by
  intro e c attrs rowsU rowsI he hU hI
  refine ⟨⟨?_, attribution_rows_tagged e attrs rowsU hU⟩,
          ⟨?_, attribution_rows_tagged c attrs rowsI hI⟩⟩
  · cases rowsU with
    | nil =>
        simp [handleRequest, handleParsed, afterUpsert, findCallByKey,
          queryRecords, createRecord, updateRecord, normalizePayload,
          mapCallPayload, removeUndefined, toEntries, jget, jgetOpt, jidx,
          jidxOpt, objGet, jsOr, truthy_vobj, truthy_vstr, truthy_vnull,
          truthy_vundefined, typeofObject, isUndefined, he, hU, Except.map,
          promiseAll_replicate, promiseAll_ok_cons, envFound, envNotFound,
          envOk, payloadDirectAttrs, jsonResponse]
    | cons r rs =>
        simp [handleRequest, handleParsed, afterUpsert, findCallByKey,
          queryRecords, createRecord, updateRecord, normalizePayload,
          mapCallPayload, removeUndefined, toEntries, jget, jgetOpt, jidx,
          jidxOpt, objGet, jsOr, truthy_vobj, truthy_vstr, truthy_vnull,
          truthy_vundefined, typeofObject, isUndefined, he, hU, Except.map,
          promiseAll_replicate, promiseAll_ok_cons, envFound, envNotFound,
          envOk, payloadDirectAttrs, jsonResponse]
  · cases rowsI with
    | nil =>
        simp [handleRequest, handleParsed, afterUpsert, findCallByKey,
          queryRecords, createRecord, updateRecord, normalizePayload,
          mapCallPayload, removeUndefined, toEntries, jget, jgetOpt, jidx,
          jidxOpt, objGet, jsOr, truthy_vobj, truthy_vstr, truthy_vnull,
          truthy_vundefined, typeofObject, isUndefined, he, hI, Except.map,
          promiseAll_replicate, promiseAll_ok_cons, envFound, envNotFound,
          envOk, payloadDirectAttrs, jsonResponse]
    | cons r rs =>
        simp [handleRequest, handleParsed, afterUpsert, findCallByKey,
          queryRecords, createRecord, updateRecord, normalizePayload,
          mapCallPayload, removeUndefined, toEntries, jget, jgetOpt, jidx,
          jidxOpt, objGet, jsOr, truthy_vobj, truthy_vstr, truthy_vnull,
          truthy_vundefined, typeofObject, isUndefined, he, hI, Except.map,
          promiseAll_replicate, promiseAll_ok_cons, envFound, envNotFound,
          envOk, payloadDirectAttrs, jsonResponse]

/-- Claim C6 witness: the upsert theorem instantiated at Scenario A/C-like
concrete inputs — found record `call-123` answers 200, no match with
created id `call-abc` answers 201. -/
theorem c6_upsert_paths_witness :
    (handleRequest ⟨"POST", .ok (payloadDirectAttrs
        [.vobj [("label", .vstr "source"), ("value", .vstr "ads")]])⟩
      (envFound (.vstr "call-123"))).1.status = 200 ∧
    (handleRequest ⟨"POST", .ok (payloadDirectAttrs
        [.vobj [("label", .vstr "source"), ("value", .vstr "ads")]])⟩
      (envNotFound (.vstr "call-abc"))).1.status = 201 := by
  have h := c6_upsert_paths (.vstr "call-123") (.vstr "call-abc")
    [.vobj [("label", .vstr "source"), ("value", .vstr "ads")]]
    [.vobj [("NoCall_Call__c", .vstr "call-123"),
      ("Label__c", .vstr "source"), ("Value__c", .vstr "ads"),
      ("External_Id__c", .vnull)]]
    [.vobj [("NoCall_Call__c", .vstr "call-abc"),
      ("Label__c", .vstr "source"), ("Value__c", .vstr "ads"),
      ("External_Id__c", .vnull)]]
    rfl rfl rfl
  rw [h.1.1, h.2.1]
  exact ⟨rfl, rfl⟩

/-- Claim C7 (amended): with duplicate-free keys, the alias mapping copies
`message` into `Conversation__c` (resp. `notes` into `Notes__c`) exactly
when the source field is truthy and the target field is falsy; a target
field holding a truthy value is never overwritten; and every key other
than the two alias targets reads unchanged after mapping (with
undefined-valued keys pruned, which leaves lookups unchanged). -/
theorem c7_alias_only_when_target_falsy :
    ∀ (fs : List (String × JVal)), (fs.map Prod.fst).Nodup →
      (truthy (objGet fs "Conversation__c") = true →
        objGet (toEntries (mapCallPayload (.vobj fs))) "Conversation__c" =
          objGet fs "Conversation__c") ∧
      (truthy (objGet fs "message") = true →
          truthy (objGet fs "Conversation__c") = false →
        objGet (toEntries (mapCallPayload (.vobj fs))) "Conversation__c" =
          objGet fs "message") ∧
      (truthy (objGet fs "Notes__c") = true →
        objGet (toEntries (mapCallPayload (.vobj fs))) "Notes__c" =
          objGet fs "Notes__c") ∧
      (truthy (objGet fs "notes") = true →
          truthy (objGet fs "Notes__c") = false →
        objGet (toEntries (mapCallPayload (.vobj fs))) "Notes__c" =
          objGet fs "notes") ∧
      (∀ k, k ≠ "Conversation__c" → k ≠ "Notes__c" →
        objGet (toEntries (mapCallPayload (.vobj fs))) k = objGet fs k) := by
  intro fs hnd
  have key := objGet_mapCallPayload fs hnd
  have hCN : ("Conversation__c" : String) ≠ "Notes__c" := by decide
  refine ⟨?_, ?_, ?_, ?_, ?_⟩
  · intro h
    have hc1 : (truthy (objGet fs "message") &&
        !truthy (objGet fs "Conversation__c")) = false := by simp [h]
    rw [key]
    by_cases hc2 : (truthy (objGet fs "notes") &&
        !truthy (objGet fs "Notes__c")) = true
    · simp only [hc1, hc2, Bool.false_eq_true, if_false, if_true]
      exact objGet_objSet_ne _ _ _ _ hCN
    · simp only [hc1, Bool.false_eq_true, if_false, if_neg hc2]
  · intro h1 h2
    have hc1 : (truthy (objGet fs "message") &&
        !truthy (objGet fs "Conversation__c")) = true := by simp [h1, h2]
    rw [key]
    by_cases hc2 : (truthy (objGet fs "notes") &&
        !truthy (objGet fs "Notes__c")) = true
    · simp only [hc1, hc2, if_true]
      rw [objGet_objSet_ne _ _ _ _ hCN, objGet_objSet_self]
    · simp only [hc1, if_true, if_neg hc2]
      rw [objGet_objSet_self]
  · intro h
    have hc2 : (truthy (objGet fs "notes") &&
        !truthy (objGet fs "Notes__c")) = false := by simp [h]
    rw [key]
    simp only [hc2, Bool.false_eq_true, if_false]
    by_cases hc1 : (truthy (objGet fs "message") &&
        !truthy (objGet fs "Conversation__c")) = true
    · simp only [hc1, if_true]
      exact objGet_objSet_ne _ _ _ _ (Ne.symm hCN)
    · simp only [if_neg hc1]
  · intro h1 h2
    have hc2 : (truthy (objGet fs "notes") &&
        !truthy (objGet fs "Notes__c")) = true := by simp [h1, h2]
    rw [key]
    simp only [hc2, if_true]
    rw [objGet_objSet_self]
  · intro k hk1 hk2
    have hk1' : k ≠ "Conversation__c" := hk1
    have hk2' : k ≠ "Notes__c" := hk2
    rw [key]
    split_ifs with h1 h2 h3
    · rw [objGet_objSet_ne _ _ _ _ hk2', objGet_objSet_ne _ _ _ _ hk1']
    · rw [objGet_objSet_ne _ _ _ _ hk2']
    · rw [objGet_objSet_ne _ _ _ _ hk1']
    · rfl

/-- Claim C7 witness: the amended alias theorem instantiated at a concrete
direct-shape call object — `message` is copied because `Conversation__c`
is absent, and the truthy `Notes__c` is left alone. -/
theorem c7_alias_only_when_target_falsy_witness :
    objGet (toEntries (mapCallPayload (.vobj [("message", JVal.vstr "hi"),
        ("Notes__c", JVal.vstr "n")]))) "Conversation__c" =
      objGet [("message", JVal.vstr "hi"), ("Notes__c", JVal.vstr "n")]
        "message" ∧
    objGet (toEntries (mapCallPayload (.vobj [("message", JVal.vstr "hi"),
        ("Notes__c", JVal.vstr "n")]))) "Notes__c" =
      objGet [("message", JVal.vstr "hi"), ("Notes__c", JVal.vstr "n")]
        "Notes__c" :=
  ⟨(c7_alias_only_when_target_falsy
      [("message", JVal.vstr "hi"), ("Notes__c", JVal.vstr "n")]
      (by decide)).2.1 rfl rfl,
   (c7_alias_only_when_target_falsy
      [("message", JVal.vstr "hi"), ("Notes__c", JVal.vstr "n")]
      (by decide)).2.2.1 rfl⟩

/-- Claim C8 (amended): an attribution item is dropped iff it is falsy or
both its `label` and its `value` are falsy (absent, null, empty string,
...); every retained item maps to a row with `Label__c`, `Value__c` and
`External_Id__c` defaulted to null, tagged with the parent call id. -/
theorem c8_attribution_filter_truthiness :
    ∀ (cid : JVal) (xs : List JVal),
      buildAttributionRecords cid (.varr xs) =
        .ok ((xs.filter attrItemKept).map (attrRowFor cid)) ∧
      ∀ row ∈ (xs.filter attrItemKept).map (attrRowFor cid),
        jget row "NoCall_Call__c" = cid := by
  intro cid xs
  constructor
  · rfl
  · intro row hrow
    rcases List.mem_map.1 hrow with ⟨item, _, rfl⟩
    rfl

/-- Claim C8 witness: concrete instantiation of the amended attribution
filter theorem. -/
theorem c8_attribution_filter_truthiness_witness :
    buildAttributionRecords (.vstr "c1")
      (.varr [.vobj [("label", .vstr "source"), ("value", .vstr "ads")]]) =
      .ok (([JVal.vobj [("label", .vstr "source"), ("value", .vstr "ads")]].filter
          attrItemKept).map (attrRowFor (.vstr "c1"))) ∧
    jget (attrRowFor (.vstr "c1")
        (.vobj [("label", .vstr "source"), ("value", .vstr "ads")]))
      "NoCall_Call__c" = .vstr "c1" := by
  refine ⟨(c8_attribution_filter_truthiness (.vstr "c1") _).1,
    (c8_attribution_filter_truthiness (.vstr "c1")
      [.vobj [("label", .vstr "source"), ("value", .vstr "ads")]]).2 _ ?_⟩
  simp [attrItemKept, attrRowFor, jget, objGet, truthy]

/-- Claim C9: the lookup query string is built deterministically from the
key value's string form: every single quote is replaced by backslash +
quote (the flatten characterization), in the escaped value every single
quote is immediately preceded by a backslash (so no key value closes the
quoted literal early at the character level), and for a truthy key value
`findCallByKey` issues exactly the one query built by `soqlForKey`. -/
theorem c9_lookup_query_escaping :
    (∀ l : List Char, quotesEscaped (escapeQuotes l) = true) ∧
    (∀ l : List Char, escapeQuotes l =
      (l.map (fun c =>
        if c = '\x27' then ['\x5c', '\x27'] else [c])).flatten) ∧
    (∀ v : JVal, truthy v = true →
      (findCallByKey envOk "CallRecord_Id__c" v).2 =
        [.query (soqlForKey "CallRecord_Id__c" v)]) := by
  refine ⟨fun l => quotesEscapedAux_escapeQuotes l false,
    escapeQuotes_eq_join, fun v hv => ?_⟩
  simp [findCallByKey, queryRecords, envOk, hv]

/-- Claim C9 witness: the query-trace clause instantiated at a concrete
truthy key value. -/
theorem c9_lookup_query_escaping_witness :
    truthy (JVal.vstr "call-1") = true ∧
    (findCallByKey envOk "CallRecord_Id__c" (.vstr "call-1")).2 =
      [.query (soqlForKey "CallRecord_Id__c" (.vstr "call-1"))] :=
  ⟨rfl, c9_lookup_query_escaping.2.2 (.vstr "call-1") rfl⟩

/-- Claim C10: a thrown value that is a truthy object exposing both a
`status` and a `body` property is classified as a Salesforce error even
though it is not a `SalesforceError` instance, and the response is mapped
through `mapSalesforceStatus` with the raw status echoed; every other
thrown value produces a 500 response with the `Unexpected error` label and
the stringified error as detail. -/
theorem c10_error_classification :
    ∀ (v : JVal) (t : Thrown),
      truthy v = true → typeofObject v = true → jhas v "status" = true →
      jhas v "body" = true → isSalesforceError t = false →
      isSalesforceError (.raw v) = true ∧
      (handleRequest ⟨"POST", .ok payloadDirect1⟩
          (envAuthThrow (.raw v))).1.status =
        mapSalesforceStatus (jget v "status") ∧
      jget (handleRequest ⟨"POST", .ok payloadDirect1⟩
          (envAuthThrow (.raw v))).1.body "salesforceStatus" =
        jget v "status" ∧
      jget (handleRequest ⟨"POST", .ok payloadDirect1⟩
          (envAuthThrow (.raw v))).1.body "error" =
        .vstr "Salesforce error" ∧
      (handleRequest ⟨"POST", .ok payloadDirect1⟩ (envAuthThrow t)).1 =
        ⟨500, .vobj [("error", .vstr "Unexpected error"),
          ("detail", .vstr (thrownToString t)),
          ("operation", .vstr "insert")]⟩ := by
  intro v t hv hobj hs hb ht
  have hcls : isSalesforceError (Thrown.raw v) = true := by
    simp [isSalesforceError, hv, hobj, hs, hb]
  refine ⟨hcls, ?_, ?_, ?_, ?_⟩ <;>
    simp [handleRequest, handleParsed, catchBranch, normalizePayload,
      jget, jgetOpt, objGet, truthy, typeofObject, jsonResponse,
      envAuthThrow, envOk, payloadDirect1, hcls, ht, thrownStatus,
      thrownBody, thrownMessage]

/-- Claim C10 witness: the classification theorem instantiated at a duck
typed error object and at a TypeError. -/
theorem c10_error_classification_witness :
    isSalesforceError (.raw (.vobj [("status", .vnum 503),
      ("body", .vnull)])) = true ∧
    (handleRequest ⟨"POST", .ok payloadDirect1⟩
        (envAuthThrow (.raw (.vobj [("status", .vnum 503),
          ("body", .vnull)])))).1.status =
      mapSalesforceStatus
        (jget (.vobj [("status", .vnum 503), ("body", .vnull)]) "status") ∧
    jget (handleRequest ⟨"POST", .ok payloadDirect1⟩
        (envAuthThrow (.raw (.vobj [("status", .vnum 503),
          ("body", .vnull)])))).1.body "salesforceStatus" =
      jget (.vobj [("status", .vnum 503), ("body", .vnull)]) "status" ∧
    jget (handleRequest ⟨"POST", .ok payloadDirect1⟩
        (envAuthThrow (.raw (.vobj [("status", .vnum 503),
          ("body", .vnull)])))).1.body "error" = .vstr "Salesforce error" ∧
    (handleRequest ⟨"POST", .ok payloadDirect1⟩
        (envAuthThrow (.jsError "TypeError" "boom"))).1 =
      ⟨500, .vobj [("error", .vstr "Unexpected error"),
        ("detail", .vstr (thrownToString (.jsError "TypeError" "boom"))),
        ("operation", .vstr "insert")]⟩ :=
  c10_error_classification (.vobj [("status", .vnum 503), ("body", .vnull)])
    (.jsError "TypeError" "boom") rfl rfl rfl rfl rfl

/-- Claim C4 (amended): the normalizer prunes exactly the undefined-valued
keys from the final call object — both the event-shape canonical call and
the alias-mapped direct-shape call contain no undefined-valued keys — and
null-valued keys are preserved, wherever they were supplied (by the source
or by the mapping's intentional null defaults). -/
theorem c4_undefined_pruned_nulls_preserved :
    (∀ (p : JVal) (kv : String × JVal),
        kv ∈ toEntries (buildCallFromWebhook p) → isUndefined kv.2 = false) ∧
    (∀ (fs : List (String × JVal)) (kv : String × JVal),
        kv ∈ toEntries (mapCallPayload (.vobj fs)) → isUndefined kv.2 = false) ∧
    (∀ (fs : List (String × JVal)) (k : String),
        (k, JVal.vnull) ∈ fs →
        objHas (toEntries (mapCallPayload (.vobj fs))) k = true) := by
  refine ⟨?_, ?_, ?_⟩
  · intro p kv h
    simp only [buildCallFromWebhook] at h
    exact mem_toEntries_removeUndefined _ kv h
  · intro fs kv h
    simp only [mapCallPayload, truthy, typeofObject, Bool.and_self,
      Bool.not_true, Bool.false_eq_true, if_false] at h
    exact mem_toEntries_removeUndefined _ kv h
  · intro fs k hmem
    have step : ∀ (L : List (String × JVal)) (k0 : String) (u : JVal),
        truthy u = true →
        (∃ w, isUndefined w = false ∧ (k, w) ∈ L) →
        ∃ w, isUndefined w = false ∧ (k, w) ∈ objSet L k0 u := by
      rintro L k0 u hu ⟨w, hw, hm⟩
      rcases mem_objSet_or L k0 u k w hm with h | h
      exacts [⟨w, hw, h⟩, ⟨u, isUndefined_of_truthy u hu, h⟩]
    have final : ∀ (L : List (String × JVal)),
        (∃ w, isUndefined w = false ∧ (k, w) ∈ L) →
        objHas (L.filter fun kv => !isUndefined kv.2) k = true := by
      rintro L ⟨w, hw, hm⟩
      exact objHas_filter_of_mem L k w hm hw
    have base : ∃ w, isUndefined w = false ∧ (k, w) ∈ fs := ⟨.vnull, rfl, hmem⟩
    show objHas
      ((if truthy (objGet fs "notes") && !truthy (objGet fs "Notes__c") then
          objSet
            (if truthy (objGet fs "message") &&
                !truthy (objGet fs "Conversation__c") then
              objSet fs "Conversation__c" (objGet fs "message")
            else fs) "Notes__c" (objGet fs "notes")
        else
          if truthy (objGet fs "message") &&
              !truthy (objGet fs "Conversation__c") then
            objSet fs "Conversation__c" (objGet fs "message")
          else fs).filter fun kv => !isUndefined kv.2) k = true
    apply final
    split_ifs with h1 h2 h3
    · exact step _ _ _ (by rw [Bool.and_eq_true] at h1; exact h1.1)
        (step _ _ _ (by rw [Bool.and_eq_true] at h2; exact h2.1) base)
    · exact step _ _ _ (by rw [Bool.and_eq_true] at h1; exact h1.1) base
    · exact step _ _ _ (by rw [Bool.and_eq_true] at h3; exact h3.1) base
    · exact base

/-- Claim C4 witness: the amended pruning theorem instantiated at concrete
inputs — a null `CallRecord_Id__c` produced by the event-shape mapping, a
retained direct-shape entry, and a preserved source-supplied null key. -/
theorem c4_undefined_pruned_nulls_preserved_witness :
    isUndefined ((("CallRecord_Id__c", JVal.vnull) : String × JVal)).2 = false ∧
    isUndefined ((("a", JVal.vstr "x") : String × JVal)).2 = false ∧
    objHas (toEntries (mapCallPayload (.vobj [("a", JVal.vnull)]))) "a" =
      true := by
  refine ⟨c4_undefined_pruned_nulls_preserved.1 payloadNoKey _ ?_,
    c4_undefined_pruned_nulls_preserved.2.1 [("a", .vstr "x")] _ ?_,
    c4_undefined_pruned_nulls_preserved.2.2 [("a", .vnull)] "a" ?_⟩
  · simp [payloadNoKey, buildCallFromWebhook, removeUndefined, toEntries,
      jget, jgetOpt, objGet, jsOr, nco, truthy, typeofObject, isUndefined,
      formatConversation]
  · simp [mapCallPayload, removeUndefined, toEntries, jget, objGet,
      truthy, typeofObject, isUndefined]
  · simp

/-- Claim C5 (amended): when a remote create, update or query call fails
with reported status `s` and non-nullish error body `b` — these three
client calls throw the typed `SalesforceError` carrying status and body —
the response status is `s` for 4xx/5xx, 502 for 3xx and 500 otherwise,
and the body carries the error label, the remote detail intact, the raw
remote status, and the operation tag current at failure time, which is
`insert` even when the failing call was the update (the tag only switches
to `update` after a successful update).  A failing authenticate is
outside this mapping: `fetchAccessToken` throws a plain `Error`, so even
a remote auth status in the 4xx range collapses to 500 with the
`Unexpected error` label and no raw remote status in the body. -/
theorem c5_remote_failure_mapping :
    ∀ (s : Int) (b : JVal), b ≠ .vnull → b ≠ .vundefined →
      (handleRequest ⟨"POST", .ok payloadDirect1⟩ (envCreateFails s b)).1 =
        ⟨if 400 ≤ s ∧ s < 600 then s
          else if 300 ≤ s ∧ s < 400 then 502 else 500,
         .vobj [("error", .vstr "Salesforce error"), ("detail", b),
           ("operation", .vstr "insert"), ("salesforceStatus", .vnum s)]⟩ ∧
      (handleRequest ⟨"POST", .ok payloadDirect1⟩ (envUpdateFails s b)).1 =
        ⟨if 400 ≤ s ∧ s < 600 then s
          else if 300 ≤ s ∧ s < 400 then 502 else 500,
         .vobj [("error", .vstr "Salesforce error"), ("detail", b),
           ("operation", .vstr "insert"), ("salesforceStatus", .vnum s)]⟩ ∧
      (handleRequest ⟨"POST", .ok payloadDirect1⟩ (envQueryFails s b)).1 =
        ⟨if 400 ≤ s ∧ s < 600 then s
          else if 300 ≤ s ∧ s < 400 then 502 else 500,
         .vobj [("error", .vstr "Salesforce error"), ("detail", b),
           ("operation", .vstr "insert"), ("salesforceStatus", .vnum s)]⟩ ∧
      (handleRequest ⟨"POST", .ok payloadDirect1⟩
          (envAuthThrow (authFailure s b))).1 =
        ⟨500, .vobj [("error", .vstr "Unexpected error"),
          ("detail", .vstr (thrownToString (authFailure s b))),
          ("operation", .vstr "insert")]⟩ ∧
      objHas (toEntries (handleRequest ⟨"POST", .ok payloadDirect1⟩
          (envAuthThrow (authFailure s b))).1.body) "salesforceStatus" =
        false := by
  intro s b h1 h2
  refine ⟨?_, ?_, ?_, ?_, ?_⟩ <;>
    simp [handleRequest, handleParsed, catchBranch, findCallByKey,
      queryRecords, createRecord, updateRecord, normalizePayload,
      mapCallPayload, removeUndefined, toEntries, jget, jgetOpt, jidx,
      jidxOpt, objGet, objHas, jsOr, nco_of_not_nullish b _ h1 h2, truthy,
      typeofObject, isUndefined, soqlForKey, jsToString, escapeSoqlValue,
      escapeQuotes, isSalesforceError, mapSalesforceStatus, jsToNumber,
      thrownStatus, thrownBody, thrownMessage, jsonResponse, authFailure,
      envCreateFails, envQueryFails, envAuthThrow, envUpdateFails,
      envFound, envOk, payloadDirect1]

/-- Claim C5 witness: Scenario E — the remote create fails with status 400
and a validation body; the response mirrors status 400 and carries the
remote body as detail — and an authenticate failure with remote status
401 collapses to 500 `Unexpected error` with no `salesforceStatus`
field. -/
theorem c5_remote_failure_mapping_witness :
    (JVal.vobj [("message", .vstr "Validation Failed")] ≠ .vnull) ∧
    (handleRequest ⟨"POST", .ok payloadDirect1⟩
        (envCreateFails 400
          (.vobj [("message", .vstr "Validation Failed")]))).1 =
      ⟨if 400 ≤ (400 : Int) ∧ (400 : Int) < 600 then 400
        else if 300 ≤ (400 : Int) ∧ (400 : Int) < 400 then 502 else 500,
       .vobj [("error", .vstr "Salesforce error"),
         ("detail", .vobj [("message", .vstr "Validation Failed")]),
         ("operation", .vstr "insert"),
         ("salesforceStatus", .vnum 400)]⟩ ∧
    (handleRequest ⟨"POST", .ok payloadDirect1⟩
        (envAuthThrow (authFailure 401
          (.vobj [("error", .vstr "invalid_grant")])))).1 =
      ⟨500, .vobj [("error", .vstr "Unexpected error"),
        ("detail", .vstr (thrownToString (authFailure 401
          (.vobj [("error", .vstr "invalid_grant")])))),
        ("operation", .vstr "insert")]⟩ ∧
    objHas (toEntries (handleRequest ⟨"POST", .ok payloadDirect1⟩
        (envAuthThrow (authFailure 401
          (.vobj [("error", .vstr "invalid_grant")])))).1.body)
      "salesforceStatus" = false :=
  ⟨fun h => JVal.noConfusion h,
    (c5_remote_failure_mapping 400
      (.vobj [("message", .vstr "Validation Failed")])
      (fun h => JVal.noConfusion h) (fun h => JVal.noConfusion h)).1,
    (c5_remote_failure_mapping 401
      (.vobj [("error", .vstr "invalid_grant")])
      (fun h => JVal.noConfusion h) (fun h => JVal.noConfusion h)).2.2.2.1,
    (c5_remote_failure_mapping 401
      (.vobj [("error", .vstr "invalid_grant")])
      (fun h => JVal.noConfusion h) (fun h => JVal.noConfusion h)).2.2.2.2⟩

end Nocall
